import Mathlib

/-!
Shallow embedding of the flomo-obsidian-extension popup logic.

The embedded code comes from two files:
  * `flomoAPI.js` — classes `FlomoAPI` (webhook client) and `ObsidianWriter`
    (Local REST API client);
  * `popup.js` — the `submitNote` orchestrator.

HTTP is modelled by passing, per operation, the network behaviour the single
`fetch` of that operation would observe: either an HTTP response (status plus
the parts of the body the code reads) or a network-level error.  Each
operation returns the list of requests it issued together with its structured
outcome `{success, message}`.
-/

/-- Result value of every client operation: `{success: boolean, message: string}`. -/
structure Outcome where
  success : Bool
  message : String
  deriving DecidableEq

/-- HTTP method used by a request of this extension. -/
inductive HttpMethod where
  | post
  | head
  deriving DecidableEq

/-- JSON body of the Obsidian note-creation request:
`{path: ..., content: ...}`. -/
structure ObsidianBody where
  path : String
  content : String
  deriving DecidableEq

/-- Body of an outgoing request. -/
inductive RequestBody where
  /-- Flomo webhook body `{content: ...}`. -/
  | flomoBody (content : String)
  /-- Obsidian note body. -/
  | obsBody (b : ObsidianBody)
  /-- No body (the HEAD probe). -/
  | noBody
  deriving DecidableEq

/-- An outgoing HTTP request, with the `Authorization` header value when one
is set. -/
structure Request where
  method : HttpMethod
  url : String
  authorization : Option String
  body : RequestBody
  deriving DecidableEq

/-- Models JavaScript `String.prototype.trim`: strip whitespace from both
ends.  (The built-in `String.trim` is extensionally the same but does not
reduce in the kernel, so the list-level definition is used.) -/
def jsTrim (s : String) : String :=
  ⟨((s.data.dropWhile Char.isWhitespace).reverse.dropWhile Char.isWhitespace).reverse⟩

/-- Models JavaScript `response.ok`: status in the inclusive range 200–299. -/
def respOk (status : Nat) : Bool :=
  200 ≤ status && status ≤ 299

/-- The value a successfully parsed JSON response body evaluates to, as far as
the code inspects it: its JavaScript truthiness and its `message` property
(`none` models the property being absent, i.e. `undefined`). -/
structure JsValue where
  truthy : Bool
  message : Option String
  deriving DecidableEq

/-- Renders a JavaScript value that is a string or `undefined` into a template
literal, as `errorData.message` is rendered in `flomoAPI.js`. -/
def renderJsString : Option String → String
  | some s => s
  | none => "undefined"

/-- Network behaviour observed by the Flomo send: an HTTP response (status and
the result of `response.json()`, `none` when parsing rejects) or a network
error. -/
inductive FlomoNet where
  | resp (status : Nat) (parsed : Option JsValue)
  | netErr (errMessage : String)
  deriving DecidableEq

/-- Network behaviour observed by the Obsidian send: an HTTP response (status
and the result of `response.text()`) or a network error. -/
inductive ObsNet where
  | resp (status : Nat) (bodyText : String)
  | netErr (errMessage : String)
  deriving DecidableEq

/-- Network behaviour observed by the Obsidian connection probe: an HTTP
response (status and statusText) or a network error. -/
inductive ProbeNet where
  | resp (status : Nat) (statusText : String)
  | netErr (errMessage : String)
  deriving DecidableEq

/-- `FlomoAPI.sendToFlomo` (`flomoAPI.js` lines 21–48).  `api_url` is the
field stored by the constructor; the guard `!this.api_url` is the emptiness
test on that string.  Returns the issued requests and the outcome. -/
def FlomoAPI.sendToFlomo (api_url content : String) (net : FlomoNet) :
    List Request × Outcome :=
  if api_url = ("") then
    ([], ⟨false, "Flomo API URL is not set."⟩)
  else
    let req : Request := ⟨.post, api_url, none, .flomoBody content⟩
    match net with
    | .resp status parsed =>
      if respOk status then
        ([req], ⟨true, "Note sent to Flomo successfully."⟩)
      else
        let detail : String :=
          match parsed with
          | some v =>
            if v.truthy then renderJsString v.message
            else ("HTTP Error: ") ++ toString status
          | none => ("HTTP Error: ") ++ toString status
        ([req], ⟨false, ("Failed to send to Flomo. ") ++ detail⟩)
    | .netErr m => ([req], ⟨false, ("Network or other error: ") ++ m⟩)

/-- `FlomoAPI.testConnection` (`flomoAPI.js` lines 54–58): builds a canned
test note around the current locale time string and reuses the send path. -/
def FlomoAPI.testConnection (api_url localeTime : String) (net : FlomoNet) :
    List Request × Outcome :=
  FlomoAPI.sendToFlomo api_url
    (("#flomo-obsidian-extension\nThis is a test message from the Flomo & Obsidian Quick Memo extension.\n") ++ localeTime)
    net

/-- State of an `ObsidianWriter` instance after construction. -/
structure ObsidianWriter where
  vaultName : String
  apiToken : String
  port : String
  deriving DecidableEq

/-- The `ObsidianWriter` constructor (`flomoAPI.js` lines 77–82): trims the
vault name (empty input stays empty) and stores token and port. -/
def mkObsidianWriter (vaultName apiToken : String) (port : String := "27123") :
    ObsidianWriter :=
  ⟨if vaultName = ("") then ("") else jsTrim vaultName, apiToken, port⟩

/-- `this.apiUrl` as computed by the constructor. -/
def ObsidianWriter.apiUrl (w : ObsidianWriter) : String :=
  ("http://127.0.0.1:") ++ w.port

/-- Wall-clock instant as read off a JavaScript `Date`: `getMonth()` is
0-based. -/
structure DateTime where
  year : Nat
  monthIndex : Nat
  day : Nat
  hours : Nat
  minutes : Nat
  seconds : Nat
  deriving DecidableEq

/-- Models JavaScript `padStart` as used in `generateFileName`: left-pad with
the digit zero to length 2. -/
def padStart2 (s : String) : String :=
  if s.length ≥ 2 then s else (String.mk (List.replicate (2 - s.length) (Char.ofNat 48))) ++ s

/-- `ObsidianWriter.generateFileName` (`flomoAPI.js` lines 89–98), as a
function of the wall-clock instant read from `new Date()`. -/
def generateFileName (now : DateTime) : String :=
  toString now.year ++ ("-") ++ padStart2 (toString (now.monthIndex + 1)) ++ ("-") ++
    padStart2 (toString now.day) ++ ("_") ++ padStart2 (toString now.hours) ++ ("-") ++
    padStart2 (toString now.minutes) ++ ("-") ++ padStart2 (toString now.seconds) ++ (".md")

/-- `ObsidianWriter.sendToObsidian` (`flomoAPI.js` lines 105–144).  `now` is
the instant `new Date()` yields inside `generateFileName`. -/
def ObsidianWriter.sendToObsidian (w : ObsidianWriter) (content : String)
    (now : DateTime) (net : ObsNet) : List Request × Outcome :=
  if w.vaultName = ("") ∨ w.apiToken = ("") then
    ([], ⟨false, "Obsidian Vault Name or API Token is not set."⟩)
  else
    let fileName := generateFileName now
    let url := w.apiUrl ++ ("/notes")
    let req : Request :=
      ⟨.post, url, some (("Bearer ") ++ w.apiToken),
        .obsBody ⟨w.vaultName ++ ("/") ++ fileName, content⟩⟩
    match net with
    | .resp status bodyText =>
      if respOk status then
        ([req], ⟨true, ("Note \x27") ++ fileName ++ ("\x27 created in Obsidian successfully.")⟩)
      else
        ([req], ⟨false, ("Failed to create note in Obsidian. HTTP ") ++ toString status ++ (": ") ++ bodyText⟩)
    | .netErr m => ([req], ⟨false, ("Network or other error: ") ++ m⟩)

/-- `ObsidianWriter.testConnection` (`flomoAPI.js` lines 152–184): HEAD probe
of `<base>/vault/` with the bearer token. -/
def ObsidianWriter.testConnection (w : ObsidianWriter) (net : ProbeNet) :
    List Request × Outcome :=
  if w.vaultName = ("") ∨ w.apiToken = ("") then
    ([], ⟨false, "Obsidian Vault Name or API Token is not set."⟩)
  else
    let url := w.apiUrl ++ ("/vault/")
    let req : Request := ⟨.head, url, some (("Bearer ") ++ w.apiToken), .noBody⟩
    match net with
    | .resp status statusText =>
      if respOk status then
        ([req], ⟨true, "Obsidian API connection successful."⟩)
      else
        let message : String :=
          if status = 401 then
            "Connection failed: Unauthorized. Check your API Token."
          else if status = 404 then
            "Connection failed: Not Found. Check if the \x27Local REST API\x27 plugin is enabled in Obsidian."
          else
            ("Obsidian API connection failed. HTTP ") ++ toString status ++ (": ") ++ statusText
        ([req], ⟨false, message⟩)
    | .netErr _ =>
      ([req], ⟨false, ("Network error. Is Obsidian running and the API plugin enabled on port ") ++ w.port ++ ("?")⟩)

/-- Observable result of one `submitNote` run (`popup.js` lines 140–181). -/
structure SubmitResult where
  /-- Message passed to `updateStatus` when validation rejects the submission
  (`none` once a submission actually starts). -/
  statusMessage : Option String
  /-- The Flomo client invocations pushed onto `submissionPromises`, each with
  its issued requests and settled outcome. -/
  flomoOps : List (List Request × Outcome)
  /-- The Obsidian client invocations pushed onto `submissionPromises`. -/
  obsidianOps : List (List Request × Outcome)
  /-- `settledResults` after the `Promise.all` join. -/
  settled : List Outcome
  /-- Messages of the successful outcomes. -/
  successMessages : List String
  /-- Messages of the failed outcomes. -/
  errorMessages : List String
  /-- Value of the note textarea after the run. -/
  finalContent : String
  deriving DecidableEq

/-- All requests issued during the run. -/
def SubmitResult.requests (r : SubmitResult) : List Request :=
  ((r.flomoOps ++ r.obsidianOps).map Prod.fst).flatten

/-- `submitNote` (`popup.js` lines 140–181).  `rawContent` is the textarea
value; `toFlomo`/`toObsidian` are the destination checkboxes; `api_url` and
`w` are the client instances in `state`; `fnet`/`onet` are the network
behaviours the two fetches would observe. -/
def submitNote (rawContent : String) (toFlomo toObsidian : Bool)
    (api_url : String) (w : ObsidianWriter) (now : DateTime)
    (fnet : FlomoNet) (onet : ObsNet) : SubmitResult :=
  let content := jsTrim rawContent
  if content = ("") then
    { statusMessage := some ("Note content cannot be empty.")
      flomoOps := [], obsidianOps := [], settled := []
      successMessages := [], errorMessages := [], finalContent := rawContent }
  else if ¬toFlomo ∧ ¬toObsidian then
    { statusMessage := some ("Please select a destination (Flomo or Obsidian).")
      flomoOps := [], obsidianOps := [], settled := []
      successMessages := [], errorMessages := [], finalContent := rawContent }
  else
    let flomoOps := if toFlomo then [FlomoAPI.sendToFlomo api_url content fnet] else []
    let obsidianOps := if toObsidian then [w.sendToObsidian content now onet] else []
    let settled := (flomoOps ++ obsidianOps).map Prod.snd
    let successMessages := (settled.filter (·.success)).map (·.message)
    let errorMessages := (settled.filter (fun r => !r.success)).map (·.message)
    { statusMessage := none
      flomoOps := flomoOps, obsidianOps := obsidianOps, settled := settled
      successMessages := successMessages, errorMessages := errorMessages
      finalContent := if errorMessages = [] then ("") else rawContent }

theorem jsTrim_empty : jsTrim ("") = ("") := by decide

theorem ne_empty_of_head (s : String) (c : Char) (h : s.data.head? = some c) :
    s ≠ ("") := by
  intro he
  rw [he] at h
  exact Option.noConfusion h

theorem head_generic (s : Nat) (st : String) :
    ((("Obsidian API connection failed. HTTP ") ++ toString s ++ (": ") ++ st)).data.head? =
      some (Char.ofNat 79) := rfl

theorem generic_ne_m401 (s : Nat) (st : String) :
    ("Obsidian API connection failed. HTTP ") ++ toString s ++ (": ") ++ st ≠
      ("Connection failed: Unauthorized. Check your API Token.") := by
  intro he
  have h2 : ((("Obsidian API connection failed. HTTP ") ++ toString s ++ (": ") ++ st)).data.head? =
      (("Connection failed: Unauthorized. Check your API Token.") : String).data.head? :=
    congrArg (fun x : String => x.data.head?) he
  rw [head_generic] at h2
  exact absurd h2 (by decide)

theorem generic_ne_m404 (s : Nat) (st : String) :
    ("Obsidian API connection failed. HTTP ") ++ toString s ++ (": ") ++ st ≠
      ("Connection failed: Not Found. Check if the \x27Local REST API\x27 plugin is enabled in Obsidian.") := by
  intro he
  have h2 : ((("Obsidian API connection failed. HTTP ") ++ toString s ++ (": ") ++ st)).data.head? =
      (("Connection failed: Not Found. Check if the \x27Local REST API\x27 plugin is enabled in Obsidian.") : String).data.head? :=
    congrArg (fun x : String => x.data.head?) he
  rw [head_generic] at h2
  exact absurd h2 (by decide)

theorem flomo_msg_ne_empty (m : Option String) :
    ("Failed to send to Flomo. ") ++ renderJsString m ≠ ("") :=
  ne_empty_of_head _ (Char.ofNat 70) rfl

theorem head_netmsg (m : String) :
    ((("Network or other error: ") ++ m)).data.head? = some (Char.ofNat 78) := rfl

theorem sendToFlomo_message_ne_empty (u c : String) (fn : FlomoNet) :
    (FlomoAPI.sendToFlomo u c fn).2.message ≠ ("") := by
  by_cases hu : u = ("")
  · simp [FlomoAPI.sendToFlomo, hu]
  · rcases fn with ⟨status, parsed⟩ | m
    · by_cases hs : respOk status
      · simp [FlomoAPI.sendToFlomo, hu, hs]
      · rcases parsed with _ | v
        · simp [FlomoAPI.sendToFlomo, hu, hs]
          exact ne_empty_of_head _ (Char.ofNat 70) rfl
        · by_cases hv : v.truthy
          · simp [FlomoAPI.sendToFlomo, hu, hs, hv]
            exact ne_empty_of_head _ (Char.ofNat 70) rfl
          · simp [FlomoAPI.sendToFlomo, hu, hs, hv]
            exact ne_empty_of_head _ (Char.ofNat 70) rfl
    · simp [FlomoAPI.sendToFlomo, hu]
      exact ne_empty_of_head _ (Char.ofNat 78) rfl

theorem sendToObsidian_message_ne_empty (w : ObsidianWriter) (c : String)
    (now : DateTime) (onet : ObsNet) :
    (w.sendToObsidian c now onet).2.message ≠ ("") := by
  by_cases hg : w.vaultName = ("") ∨ w.apiToken = ("")
  · simp [ObsidianWriter.sendToObsidian, hg]
  · rcases onet with ⟨status, bodyText⟩ | m
    · by_cases hs : respOk status
      · simp [ObsidianWriter.sendToObsidian, hg, hs]
        exact ne_empty_of_head _ (Char.ofNat 78) rfl
      · simp [ObsidianWriter.sendToObsidian, hg, hs]
        exact ne_empty_of_head _ (Char.ofNat 70) rfl
    · simp [ObsidianWriter.sendToObsidian, hg]
      exact ne_empty_of_head _ (Char.ofNat 78) rfl

theorem testConnection_message_ne_empty (w : ObsidianWriter) (pnet : ProbeNet) :
    (w.testConnection pnet).2.message ≠ ("") := by
  by_cases hg : w.vaultName = ("") ∨ w.apiToken = ("")
  · simp [ObsidianWriter.testConnection, hg]
  · rcases pnet with ⟨status, statusText⟩ | m
    · by_cases hs : respOk status
      · simp [ObsidianWriter.testConnection, hg, hs]
      · by_cases h1 : status = 401
        · simp [ObsidianWriter.testConnection, respOk, hg, hs, h1]
        · by_cases h4 : status = 404
          · simp [ObsidianWriter.testConnection, respOk, hg, hs, h1, h4]
          · simp [ObsidianWriter.testConnection, hg, hs, h1, h4]
            exact ne_empty_of_head _ (Char.ofNat 79) rfl
    · simp [ObsidianWriter.testConnection, hg]
      exact ne_empty_of_head _ (Char.ofNat 78) rfl

theorem mkObsidianWriter_vaultName_ne_empty (v t p : String) (hv : jsTrim v ≠ ("")) :
    (mkObsidianWriter v t p).vaultName ≠ ("") := by
  show (if v = ("") then ("") else jsTrim v) ≠ ("")
  by_cases h : v = ("")
  · exact absurd (show jsTrim v = ("") by rw [h]; exact jsTrim_empty) hv
  · rw [if_neg h]
    exact hv

/-- Claim C6: with an unset webhook URL the Flomo send fails immediately with
the missing-configuration message and issues no request; with an empty
(after trimming) vault name or empty token the Obsidian send does likewise. -/
theorem missing_config_fails_without_network_call
    (content : String) (fnet : FlomoNet) (v t p : String) (now : DateTime)
    (onet : ObsNet) (hw : jsTrim v = ("") ∨ t = ("")) :
    FlomoAPI.sendToFlomo ("") content fnet =
      ([], ⟨false, ("Flomo API URL is not set.")⟩) ∧
    (mkObsidianWriter v t p).sendToObsidian content now onet =
      ([], ⟨false, ("Obsidian Vault Name or API Token is not set.")⟩) := by
  constructor
  · simp [FlomoAPI.sendToFlomo]
  · have hg : (mkObsidianWriter v t p).vaultName = ("") ∨
        (mkObsidianWriter v t p).apiToken = ("") := by
      rcases hw with h | h
      · left
        show (if v = ("") then ("") else jsTrim v) = ("")
        by_cases hv : v = ("")
        · rw [if_pos hv]
        · rw [if_neg hv]
          exact h
      · right
        exact h
    simp [ObsidianWriter.sendToObsidian, hg]

/-- Closed instance of `missing_config_fails_without_network_call`. -/
theorem missing_config_witness :
    (jsTrim (" ") = ("") ∨ (("tok") : String) = ("")) ∧
    (FlomoAPI.sendToFlomo ("") ("x") (.netErr ("e")) =
        ([], ⟨false, ("Flomo API URL is not set.")⟩) ∧
      (mkObsidianWriter (" ") ("tok") ("27123")).sendToObsidian ("x")
          ⟨2024, 0, 5, 7, 3, 9⟩ (.resp 500 ("err")) =
        ([], ⟨false, ("Obsidian Vault Name or API Token is not set.")⟩)) :=
  ⟨Or.inl (by decide),
    missing_config_fails_without_network_call ("x") (.netErr ("e")) (" ")
      ("tok") ("27123") ⟨2024, 0, 5, 7, 3, 9⟩ (.resp 500 ("err"))
      (Or.inl (by decide))⟩

/-- Claim C7: empty or whitespace-only content, or no selected destination,
rejects the submission with the corresponding validation message, invokes no
client operation and issues no request, leaving the input unchanged. -/
theorem validation_blocks_submission
    (rawContent : String) (toFlomo toObsidian : Bool) (api_url : String)
    (w : ObsidianWriter) (now : DateTime) (fnet : FlomoNet) (onet : ObsNet) :
    (jsTrim rawContent = ("") →
      submitNote rawContent toFlomo toObsidian api_url w now fnet onet =
        { statusMessage := some ("Note content cannot be empty.")
          flomoOps := [], obsidianOps := [], settled := []
          successMessages := [], errorMessages := [], finalContent := rawContent } ∧
      (submitNote rawContent toFlomo toObsidian api_url w now fnet onet).requests = []) ∧
    (jsTrim rawContent ≠ ("") → toFlomo = false → toObsidian = false →
      submitNote rawContent toFlomo toObsidian api_url w now fnet onet =
        { statusMessage := some ("Please select a destination (Flomo or Obsidian).")
          flomoOps := [], obsidianOps := [], settled := []
          successMessages := [], errorMessages := [], finalContent := rawContent } ∧
      (submitNote rawContent toFlomo toObsidian api_url w now fnet onet).requests = []) := by
  constructor
  · intro h
    constructor
    · simp [submitNote, h]
    · simp [submitNote, h, SubmitResult.requests]
  · intro h h1 h2
    constructor
    · simp [submitNote, h, h1, h2]
    · simp [submitNote, h, h1, h2, SubmitResult.requests]

/-- Closed instance of `validation_blocks_submission`. -/
theorem validation_blocks_submission_witness :
    (jsTrim ("  ") = ("") ∧
      submitNote ("  ") true true ("u") (mkObsidianWriter ("v") ("t") ("27123"))
          ⟨2024, 0, 5, 7, 3, 9⟩ (.resp 200 none) (.resp 200 ("")) =
        { statusMessage := some ("Note content cannot be empty.")
          flomoOps := [], obsidianOps := [], settled := []
          successMessages := [], errorMessages := [], finalContent := ("  ") } ∧
      (submitNote ("  ") true true ("u") (mkObsidianWriter ("v") ("t") ("27123"))
          ⟨2024, 0, 5, 7, 3, 9⟩ (.resp 200 none) (.resp 200 (""))).requests = []) ∧
    (jsTrim ("hi") ≠ ("") ∧
      submitNote ("hi") false false ("u") (mkObsidianWriter ("v") ("t") ("27123"))
          ⟨2024, 0, 5, 7, 3, 9⟩ (.resp 200 none) (.resp 200 ("")) =
        { statusMessage := some ("Please select a destination (Flomo or Obsidian).")
          flomoOps := [], obsidianOps := [], settled := []
          successMessages := [], errorMessages := [], finalContent := ("hi") } ∧
      (submitNote ("hi") false false ("u") (mkObsidianWriter ("v") ("t") ("27123"))
          ⟨2024, 0, 5, 7, 3, 9⟩ (.resp 200 none) (.resp 200 (""))).requests = []) :=
  ⟨⟨by decide,
    (validation_blocks_submission ("  ") true true ("u")
      (mkObsidianWriter ("v") ("t") ("27123")) ⟨2024, 0, 5, 7, 3, 9⟩
      (.resp 200 none) (.resp 200 (""))).1 (by decide)⟩,
   ⟨by decide,
    (validation_blocks_submission ("hi") false false ("u")
      (mkObsidianWriter ("v") ("t") ("27123")) ⟨2024, 0, 5, 7, 3, 9⟩
      (.resp 200 none) (.resp 200 (""))).2 (by decide) rfl rfl⟩⟩

theorem submitNote_eq (rawContent : String) (toFlomo toObsidian : Bool)
    (api_url : String) (w : ObsidianWriter) (now : DateTime)
    (fnet : FlomoNet) (onet : ObsNet)
    (hc : jsTrim rawContent ≠ ("")) (hd : toFlomo = true ∨ toObsidian = true) :
    submitNote rawContent toFlomo toObsidian api_url w now fnet onet =
      (let flomoOps := if toFlomo then [FlomoAPI.sendToFlomo api_url (jsTrim rawContent) fnet] else []
       let obsidianOps := if toObsidian then [w.sendToObsidian (jsTrim rawContent) now onet] else []
       let settled := (flomoOps ++ obsidianOps).map Prod.snd
       let successMessages := (settled.filter (·.success)).map (·.message)
       let errorMessages := (settled.filter (fun r => !r.success)).map (·.message)
       { statusMessage := none
         flomoOps := flomoOps, obsidianOps := obsidianOps, settled := settled
         successMessages := successMessages, errorMessages := errorMessages
         finalContent := if errorMessages = [] then ("") else rawContent }) := by
  unfold submitNote
  dsimp only
  rw [if_neg hc, if_neg (by rcases hd with h | h <;> simp [h])]

/-- Claim C1: a valid submission (non-empty trimmed note, at least one
destination selected) invokes the Flomo send exactly once iff the Flomo
checkbox is selected, and the Obsidian send exactly once iff the Obsidian
checkbox is selected; an unselected destination is never invoked. -/
theorem submitNote_dispatches_exactly_selected
    (rawContent : String) (toFlomo toObsidian : Bool) (api_url : String)
    (w : ObsidianWriter) (now : DateTime) (fnet : FlomoNet) (onet : ObsNet)
    (hc : jsTrim rawContent ≠ ("")) (hd : toFlomo = true ∨ toObsidian = true) :
    ((submitNote rawContent toFlomo toObsidian api_url w now fnet onet).flomoOps =
      if toFlomo then [FlomoAPI.sendToFlomo api_url (jsTrim rawContent) fnet] else []) ∧
    ((submitNote rawContent toFlomo toObsidian api_url w now fnet onet).obsidianOps =
      if toObsidian then [w.sendToObsidian (jsTrim rawContent) now onet] else []) ∧
    ((submitNote rawContent toFlomo toObsidian api_url w now fnet onet).flomoOps.length =
      if toFlomo then 1 else 0) ∧
    ((submitNote rawContent toFlomo toObsidian api_url w now fnet onet).obsidianOps.length =
      if toObsidian then 1 else 0) := by
  rw [submitNote_eq rawContent toFlomo toObsidian api_url w now fnet onet hc hd]
  cases toFlomo <;> cases toObsidian <;> simp

/-- Closed instance of `submitNote_dispatches_exactly_selected`. -/
theorem submitNote_dispatches_witness :
    jsTrim ("hi") ≠ ("") ∧ (true = true ∨ false = true) ∧
    (((submitNote ("hi") true false ("u") (mkObsidianWriter ("v") ("t") ("27123"))
        ⟨2024, 0, 5, 7, 3, 9⟩ (.resp 200 none) (.resp 200 (""))).flomoOps =
      if true then [FlomoAPI.sendToFlomo ("u") (jsTrim ("hi")) (.resp 200 none)] else []) ∧
    ((submitNote ("hi") true false ("u") (mkObsidianWriter ("v") ("t") ("27123"))
        ⟨2024, 0, 5, 7, 3, 9⟩ (.resp 200 none) (.resp 200 (""))).obsidianOps =
      if false then [(mkObsidianWriter ("v") ("t") ("27123")).sendToObsidian (jsTrim ("hi"))
        ⟨2024, 0, 5, 7, 3, 9⟩ (.resp 200 (""))] else []) ∧
    ((submitNote ("hi") true false ("u") (mkObsidianWriter ("v") ("t") ("27123"))
        ⟨2024, 0, 5, 7, 3, 9⟩ (.resp 200 none) (.resp 200 (""))).flomoOps.length =
      if true then 1 else 0) ∧
    ((submitNote ("hi") true false ("u") (mkObsidianWriter ("v") ("t") ("27123"))
        ⟨2024, 0, 5, 7, 3, 9⟩ (.resp 200 none) (.resp 200 (""))).obsidianOps.length =
      if false then 1 else 0)) :=
  ⟨by decide, Or.inl rfl,
    submitNote_dispatches_exactly_selected ("hi") true false ("u")
      (mkObsidianWriter ("v") ("t") ("27123")) ⟨2024, 0, 5, 7, 3, 9⟩
      (.resp 200 none) (.resp 200 ("")) (by decide) (Or.inl rfl)⟩

theorem clear_if_lemma (rc : String) (errs : List String) (h : rc ≠ ("")) :
    ((if errs = [] then ("") else rc) = ("") ↔ errs = []) ∧
    (errs ≠ [] → (if errs = [] then ("") else rc) = rc) := by
  by_cases he : errs = [] <;> simp [he, h]

/-- Claim C2: after the outcomes of a valid submission are merged, the note
input is cleared iff the failure set is empty; with any failure the input
keeps its pre-submission content unchanged. -/
theorem submitNote_clears_input_iff_no_failure
    (rawContent : String) (toFlomo toObsidian : Bool) (api_url : String)
    (w : ObsidianWriter) (now : DateTime) (fnet : FlomoNet) (onet : ObsNet)
    (hc : jsTrim rawContent ≠ ("")) (hd : toFlomo = true ∨ toObsidian = true) :
    ((submitNote rawContent toFlomo toObsidian api_url w now fnet onet).finalContent = ("") ↔
      (submitNote rawContent toFlomo toObsidian api_url w now fnet onet).errorMessages = []) ∧
    ((submitNote rawContent toFlomo toObsidian api_url w now fnet onet).errorMessages ≠ [] →
      (submitNote rawContent toFlomo toObsidian api_url w now fnet onet).finalContent = rawContent) := by
  have hraw : rawContent ≠ ("") := fun h => hc (by rw [h]; exact jsTrim_empty)
  rw [submitNote_eq rawContent toFlomo toObsidian api_url w now fnet onet hc hd]
  exact clear_if_lemma rawContent _ hraw

/-- Closed instance of `submitNote_clears_input_iff_no_failure`. -/
theorem submitNote_clears_input_witness :
    jsTrim ("hi") ≠ ("") ∧
    (((submitNote ("hi") true false ("") (mkObsidianWriter ("v") ("t") ("27123"))
        ⟨2024, 0, 5, 7, 3, 9⟩ (.resp 200 none) (.resp 200 (""))).finalContent = ("") ↔
      (submitNote ("hi") true false ("") (mkObsidianWriter ("v") ("t") ("27123"))
        ⟨2024, 0, 5, 7, 3, 9⟩ (.resp 200 none) (.resp 200 (""))).errorMessages = []) ∧
    ((submitNote ("hi") true false ("") (mkObsidianWriter ("v") ("t") ("27123"))
        ⟨2024, 0, 5, 7, 3, 9⟩ (.resp 200 none) (.resp 200 (""))).errorMessages ≠ [] →
      (submitNote ("hi") true false ("") (mkObsidianWriter ("v") ("t") ("27123"))
        ⟨2024, 0, 5, 7, 3, 9⟩ (.resp 200 none) (.resp 200 (""))).finalContent = ("hi"))) :=
  ⟨by decide,
    submitNote_clears_input_iff_no_failure ("hi") true false ("")
      (mkObsidianWriter ("v") ("t") ("27123")) ⟨2024, 0, 5, 7, 3, 9⟩
      (.resp 200 none) (.resp 200 ("")) (by decide) (Or.inl rfl)⟩

/-- Claim C3: every client operation resolves, for every network behaviour
(responses of any status as well as network-level errors), to a structured
outcome carrying a non-empty message; the submission join settles one outcome
per selected destination, and the outcome of each selected destination
reaches the settled list regardless of the network behaviour at the other
destination. -/
theorem all_operations_settle_structured
    (rawContent : String) (toFlomo toObsidian : Bool) (api_url : String)
    (w : ObsidianWriter) (now : DateTime) (fnet : FlomoNet) (onet : ObsNet)
    (fnet2 : FlomoNet) (onet2 : ObsNet) (pnet : ProbeNet) (localeTime c2 : String)
    (hc : jsTrim rawContent ≠ ("")) (hd : toFlomo = true ∨ toObsidian = true) :
    ((FlomoAPI.sendToFlomo api_url c2 fnet2).2.message ≠ ("")) ∧
    ((FlomoAPI.testConnection api_url localeTime fnet2).2.message ≠ ("")) ∧
    ((w.sendToObsidian c2 now onet2).2.message ≠ ("")) ∧
    ((w.testConnection pnet).2.message ≠ ("")) ∧
    ((submitNote rawContent toFlomo toObsidian api_url w now fnet onet).settled =
      ((submitNote rawContent toFlomo toObsidian api_url w now fnet onet).flomoOps ++
        (submitNote rawContent toFlomo toObsidian api_url w now fnet onet).obsidianOps).map Prod.snd) ∧
    ((submitNote rawContent toFlomo toObsidian api_url w now fnet onet).settled.length =
      (if toFlomo then 1 else 0) + (if toObsidian then 1 else 0)) ∧
    (toFlomo = true →
      (FlomoAPI.sendToFlomo api_url (jsTrim rawContent) fnet).2 ∈
        (submitNote rawContent toFlomo toObsidian api_url w now fnet onet).settled) ∧
    (toObsidian = true →
      (w.sendToObsidian (jsTrim rawContent) now onet).2 ∈
        (submitNote rawContent toFlomo toObsidian api_url w now fnet onet).settled) := by
  refine ⟨sendToFlomo_message_ne_empty api_url c2 fnet2,
    sendToFlomo_message_ne_empty api_url _ fnet2,
    sendToObsidian_message_ne_empty w c2 now onet2,
    testConnection_message_ne_empty w pnet, ?_, ?_, ?_, ?_⟩ <;>
    rw [submitNote_eq rawContent toFlomo toObsidian api_url w now fnet onet hc hd] <;>
    cases toFlomo <;> cases toObsidian <;> simp

/-- Closed instance of `all_operations_settle_structured`: the Flomo send
hits a network error while the Obsidian send succeeds, and both outcomes
still settle. -/
theorem all_operations_settle_witness :
    jsTrim ("hi") ≠ ("") ∧
    (((FlomoAPI.sendToFlomo ("u") ("c") (.netErr ("down"))).2.message ≠ ("")) ∧
    ((FlomoAPI.testConnection ("u") ("1/1/2024") (.netErr ("down"))).2.message ≠ ("")) ∧
    (((mkObsidianWriter ("v") ("t") ("27123")).sendToObsidian ("c")
        ⟨2024, 0, 5, 7, 3, 9⟩ (.resp 200 (""))).2.message ≠ ("")) ∧
    (((mkObsidianWriter ("v") ("t") ("27123")).testConnection (.netErr ("down"))).2.message ≠ ("")) ∧
    ((submitNote ("hi") true true ("u") (mkObsidianWriter ("v") ("t") ("27123"))
        ⟨2024, 0, 5, 7, 3, 9⟩ (.netErr ("down")) (.resp 200 (""))).settled =
      ((submitNote ("hi") true true ("u") (mkObsidianWriter ("v") ("t") ("27123"))
        ⟨2024, 0, 5, 7, 3, 9⟩ (.netErr ("down")) (.resp 200 (""))).flomoOps ++
        (submitNote ("hi") true true ("u") (mkObsidianWriter ("v") ("t") ("27123"))
        ⟨2024, 0, 5, 7, 3, 9⟩ (.netErr ("down")) (.resp 200 (""))).obsidianOps).map Prod.snd) ∧
    ((submitNote ("hi") true true ("u") (mkObsidianWriter ("v") ("t") ("27123"))
        ⟨2024, 0, 5, 7, 3, 9⟩ (.netErr ("down")) (.resp 200 (""))).settled.length =
      (if true then 1 else 0) + (if true then 1 else 0)) ∧
    (true = true →
      (FlomoAPI.sendToFlomo ("u") (jsTrim ("hi")) (.netErr ("down"))).2 ∈
        (submitNote ("hi") true true ("u") (mkObsidianWriter ("v") ("t") ("27123"))
          ⟨2024, 0, 5, 7, 3, 9⟩ (.netErr ("down")) (.resp 200 (""))).settled) ∧
    (true = true →
      ((mkObsidianWriter ("v") ("t") ("27123")).sendToObsidian (jsTrim ("hi"))
          ⟨2024, 0, 5, 7, 3, 9⟩ (.resp 200 (""))).2 ∈
        (submitNote ("hi") true true ("u") (mkObsidianWriter ("v") ("t") ("27123"))
          ⟨2024, 0, 5, 7, 3, 9⟩ (.netErr ("down")) (.resp 200 (""))).settled)) :=
  ⟨by decide,
    all_operations_settle_structured ("hi") true true ("u")
      (mkObsidianWriter ("v") ("t") ("27123")) ⟨2024, 0, 5, 7, 3, 9⟩
      (.netErr ("down")) (.resp 200 ("")) (.netErr ("down")) (.resp 200 (""))
      (.netErr ("down")) ("1/1/2024") ("c") (by decide) (Or.inl rfl)⟩

/-- Claim C4: on a non-success HTTP response the Flomo send reports, after
the fixed failure preamble, the `message` field of the parsed body when it
parsed to a truthy value, and the raw HTTP status code otherwise; in
particular a parse failure always yields the status-code form. -/
theorem flomo_error_reporting
    (api_url content : String) (status : Nat) (parsed : Option JsValue)
    (hu : api_url ≠ ("")) (hs : respOk status = false) :
    ((FlomoAPI.sendToFlomo api_url content (.resp status parsed)).2.success = false) ∧
    (parsed = none →
      (FlomoAPI.sendToFlomo api_url content (.resp status parsed)).2.message =
        ("Failed to send to Flomo. ") ++ (("HTTP Error: ") ++ toString status)) ∧
    ((∃ v, parsed = some v ∧ v.truthy = true ∧
        (FlomoAPI.sendToFlomo api_url content (.resp status parsed)).2.message =
          ("Failed to send to Flomo. ") ++ renderJsString v.message) ∨
      (FlomoAPI.sendToFlomo api_url content (.resp status parsed)).2.message =
        ("Failed to send to Flomo. ") ++ (("HTTP Error: ") ++ toString status)) := by
  rcases parsed with _ | v
  · simp [FlomoAPI.sendToFlomo, hu, hs]
  · by_cases hv : v.truthy
    · simp [FlomoAPI.sendToFlomo, hu, hs, hv]
    · simp [FlomoAPI.sendToFlomo, hu, hs, hv]

/-- Closed instance of `flomo_error_reporting` at status 404 with an
unparseable body. -/
theorem flomo_error_reporting_witness :
    (("u") : String) ≠ ("") ∧ respOk 404 = false ∧
    (((FlomoAPI.sendToFlomo ("u") ("c") (.resp 404 none)).2.success = false) ∧
    ((none : Option JsValue) = none →
      (FlomoAPI.sendToFlomo ("u") ("c") (.resp 404 none)).2.message =
        ("Failed to send to Flomo. ") ++ (("HTTP Error: ") ++ toString 404)) ∧
    ((∃ v, (none : Option JsValue) = some v ∧ v.truthy = true ∧
        (FlomoAPI.sendToFlomo ("u") ("c") (.resp 404 none)).2.message =
          ("Failed to send to Flomo. ") ++ renderJsString v.message) ∨
      (FlomoAPI.sendToFlomo ("u") ("c") (.resp 404 none)).2.message =
        ("Failed to send to Flomo. ") ++ (("HTTP Error: ") ++ toString 404))) :=
  ⟨by decide, by decide,
    flomo_error_reporting ("u") ("c") 404 none (by decide) (by decide)⟩

/-- Claim C5: the Obsidian connection probe maps status 401 to the
check-your-token message, 404 to the enable-the-plugin message, every other
non-success status to a generic message carrying status and statusText; the
three messages are pairwise distinct, and every success status yields a
success outcome. -/
theorem obsidian_probe_status_messages
    (w : ObsidianWriter) (status : Nat) (statusText : String)
    (hv : w.vaultName ≠ ("")) (ht : w.apiToken ≠ ("")) :
    ((w.testConnection (.resp 401 statusText)).2 =
      ⟨false, ("Connection failed: Unauthorized. Check your API Token.")⟩) ∧
    ((w.testConnection (.resp 404 statusText)).2 =
      ⟨false, ("Connection failed: Not Found. Check if the \x27Local REST API\x27 plugin is enabled in Obsidian.")⟩) ∧
    (respOk status = false → status ≠ 401 → status ≠ 404 →
      (w.testConnection (.resp status statusText)).2 =
        ⟨false, ("Obsidian API connection failed. HTTP ") ++ toString status ++ (": ") ++ statusText⟩) ∧
    (respOk status = true →
      (w.testConnection (.resp status statusText)).2 =
        ⟨true, ("Obsidian API connection successful.")⟩) ∧
    ((("Connection failed: Unauthorized. Check your API Token.") : String) ≠
      ("Connection failed: Not Found. Check if the \x27Local REST API\x27 plugin is enabled in Obsidian.")) ∧
    (("Obsidian API connection failed. HTTP ") ++ toString status ++ (": ") ++ statusText ≠
      ("Connection failed: Unauthorized. Check your API Token.")) ∧
    (("Obsidian API connection failed. HTTP ") ++ toString status ++ (": ") ++ statusText ≠
      ("Connection failed: Not Found. Check if the \x27Local REST API\x27 plugin is enabled in Obsidian.")) := by
  have hg : ¬(w.vaultName = ("") ∨ w.apiToken = ("")) := by
    simp [hv, ht]
  refine ⟨?_, ?_, ?_, ?_, by decide, generic_ne_m401 status statusText,
    generic_ne_m404 status statusText⟩
  · simp [ObsidianWriter.testConnection, respOk, hg]
  · simp [ObsidianWriter.testConnection, respOk, hg]
  · intro hs h1 h4
    simp [ObsidianWriter.testConnection, hg, hs, h1, h4]
  · intro hs
    simp [ObsidianWriter.testConnection, hg, hs]

/-- Closed instance of `obsidian_probe_status_messages` at status 500. -/
theorem obsidian_probe_status_messages_witness :
    (mkObsidianWriter ("v") ("t") ("27123")).vaultName ≠ ("") ∧
    (mkObsidianWriter ("v") ("t") ("27123")).apiToken ≠ ("") ∧
    (((mkObsidianWriter ("v") ("t") ("27123")).testConnection (.resp 401 ("x"))).2 =
      ⟨false, ("Connection failed: Unauthorized. Check your API Token.")⟩) ∧
    (((mkObsidianWriter ("v") ("t") ("27123")).testConnection (.resp 404 ("x"))).2 =
      ⟨false, ("Connection failed: Not Found. Check if the \x27Local REST API\x27 plugin is enabled in Obsidian.")⟩) ∧
    (respOk 500 = false → 500 ≠ 401 → 500 ≠ 404 →
      ((mkObsidianWriter ("v") ("t") ("27123")).testConnection (.resp 500 ("x"))).2 =
        ⟨false, ("Obsidian API connection failed. HTTP ") ++ toString 500 ++ (": ") ++ ("x")⟩) ∧
    (respOk 500 = true →
      ((mkObsidianWriter ("v") ("t") ("27123")).testConnection (.resp 500 ("x"))).2 =
        ⟨true, ("Obsidian API connection successful.")⟩) ∧
    ((("Connection failed: Unauthorized. Check your API Token.") : String) ≠
      ("Connection failed: Not Found. Check if the \x27Local REST API\x27 plugin is enabled in Obsidian.")) ∧
    (("Obsidian API connection failed. HTTP ") ++ toString 500 ++ (": ") ++ ("x") ≠
      ("Connection failed: Unauthorized. Check your API Token.")) ∧
    (("Obsidian API connection failed. HTTP ") ++ toString 500 ++ (": ") ++ ("x") ≠
      ("Connection failed: Not Found. Check if the \x27Local REST API\x27 plugin is enabled in Obsidian.")) :=
  ⟨by decide, by decide,
    obsidian_probe_status_messages (mkObsidianWriter ("v") ("t") ("27123"))
      500 ("x") (by decide) (by decide)⟩

/-- Claim C8: the generated filename is a deterministic function of the
wall-clock instant in the format YYYY-MM-DD_HH-mm-ss.md, with the month
rendered 1-based and every component after the year zero-padded to exactly
two digits; two sends sharing the same wall-clock second embed the identical
generated filename in their request paths. -/
theorem generateFileName_format_and_collision
    (w : ObsidianWriter) (c1 c2 : String) (now : DateTime) (net1 net2 : ObsNet)
    (n m : Nat) (hn : n < 100) (hm : m < 10)
    (hv : w.vaultName ≠ ("")) (ht : w.apiToken ≠ ("")) :
    (generateFileName now =
      toString now.year ++ ("-") ++ padStart2 (toString (now.monthIndex + 1)) ++ ("-") ++
        padStart2 (toString now.day) ++ ("_") ++ padStart2 (toString now.hours) ++ ("-") ++
        padStart2 (toString now.minutes) ++ ("-") ++ padStart2 (toString now.seconds) ++ (".md")) ∧
    ((padStart2 (toString n)).length = 2) ∧
    (padStart2 (toString m) = ("0") ++ toString m) ∧
    (∃ r1 r2 : Request,
      (w.sendToObsidian c1 now net1).1 = [r1] ∧
      (w.sendToObsidian c2 now net2).1 = [r2] ∧
      r1.body = .obsBody ⟨w.vaultName ++ ("/") ++ generateFileName now, c1⟩ ∧
      r2.body = .obsBody ⟨w.vaultName ++ ("/") ++ generateFileName now, c2⟩) := by
  have hg : ¬(w.vaultName = ("") ∨ w.apiToken = ("")) := by simp [hv, ht]
  refine ⟨rfl, ?_, ?_, ?_⟩
  · have h100 : ∀ k, k < 100 → (padStart2 (toString k)).length = 2 := by decide
    exact h100 n hn
  · have h10 : ∀ k, k < 10 → padStart2 (toString k) = ("0") ++ toString k := by decide
    exact h10 m hm
  · refine ⟨⟨.post, w.apiUrl ++ ("/notes"), some (("Bearer ") ++ w.apiToken),
      .obsBody ⟨w.vaultName ++ ("/") ++ generateFileName now, c1⟩⟩,
      ⟨.post, w.apiUrl ++ ("/notes"), some (("Bearer ") ++ w.apiToken),
      .obsBody ⟨w.vaultName ++ ("/") ++ generateFileName now, c2⟩⟩, ?_, ?_, rfl, rfl⟩
    · cases net1 <;> simp [ObsidianWriter.sendToObsidian, hg] <;> split <;> rfl
    · cases net2 <;> simp [ObsidianWriter.sendToObsidian, hg] <;> split <;> rfl

/-- Closed instance of `generateFileName_format_and_collision`. -/
theorem generateFileName_format_witness :
    (57 : Nat) < 100 ∧ (3 : Nat) < 10 ∧
    (generateFileName ⟨2024, 0, 5, 7, 3, 9⟩ =
      toString 2024 ++ ("-") ++ padStart2 (toString (0 + 1)) ++ ("-") ++
        padStart2 (toString 5) ++ ("_") ++ padStart2 (toString 7) ++ ("-") ++
        padStart2 (toString 3) ++ ("-") ++ padStart2 (toString 9) ++ (".md") ∧
    ((padStart2 (toString 57)).length = 2) ∧
    (padStart2 (toString 3) = ("0") ++ toString 3) ∧
    (∃ r1 r2 : Request,
      ((mkObsidianWriter ("v") ("t") ("27123")).sendToObsidian ("a")
        ⟨2024, 0, 5, 7, 3, 9⟩ (.resp 200 (""))).1 = [r1] ∧
      ((mkObsidianWriter ("v") ("t") ("27123")).sendToObsidian ("b")
        ⟨2024, 0, 5, 7, 3, 9⟩ (.resp 500 ("x"))).1 = [r2] ∧
      r1.body = .obsBody ⟨(mkObsidianWriter ("v") ("t") ("27123")).vaultName ++ ("/") ++
        generateFileName ⟨2024, 0, 5, 7, 3, 9⟩, ("a")⟩ ∧
      r2.body = .obsBody ⟨(mkObsidianWriter ("v") ("t") ("27123")).vaultName ++ ("/") ++
        generateFileName ⟨2024, 0, 5, 7, 3, 9⟩, ("b")⟩)) :=
  ⟨by decide, by decide,
    generateFileName_format_and_collision (mkObsidianWriter ("v") ("t") ("27123"))
      ("a") ("b") ⟨2024, 0, 5, 7, 3, 9⟩ (.resp 200 ("")) (.resp 500 ("x"))
      57 3 (by decide) (by decide) (by decide) (by decide)⟩

/-- Claim C9: a configured Obsidian send issues exactly one POST request, to
the loopback base followed by /notes (a URL built only from the port), whose
body carries the vault name exactly once as the prefix of the path field,
alongside the content field. -/
theorem sendToObsidian_single_post_request
    (w : ObsidianWriter) (content : String) (now : DateTime) (net : ObsNet)
    (hv : w.vaultName ≠ ("")) (ht : w.apiToken ≠ ("")) :
    (w.sendToObsidian content now net).1 =
      [⟨.post, ("http://127.0.0.1:") ++ w.port ++ ("/notes"),
        some (("Bearer ") ++ w.apiToken),
        .obsBody ⟨w.vaultName ++ ("/") ++ generateFileName now, content⟩⟩] := by
  have hg : ¬(w.vaultName = ("") ∨ w.apiToken = ("")) := by simp [hv, ht]
  cases net <;> simp [ObsidianWriter.sendToObsidian, ObsidianWriter.apiUrl, hg] <;> split <;> rfl

/-- Closed instance of `sendToObsidian_single_post_request`. -/
theorem sendToObsidian_single_post_request_witness :
    (mkObsidianWriter ("v") ("t") ("27123")).vaultName ≠ ("") ∧
    (mkObsidianWriter ("v") ("t") ("27123")).apiToken ≠ ("") ∧
    ((mkObsidianWriter ("v") ("t") ("27123")).sendToObsidian ("c")
        ⟨2024, 0, 5, 7, 3, 9⟩ (.resp 200 (""))).1 =
      [⟨.post, ("http://127.0.0.1:") ++ (mkObsidianWriter ("v") ("t") ("27123")).port ++ ("/notes"),
        some (("Bearer ") ++ (mkObsidianWriter ("v") ("t") ("27123")).apiToken),
        .obsBody ⟨(mkObsidianWriter ("v") ("t") ("27123")).vaultName ++ ("/") ++
          generateFileName ⟨2024, 0, 5, 7, 3, 9⟩, ("c")⟩⟩] :=
  ⟨by decide, by decide,
    sendToObsidian_single_post_request (mkObsidianWriter ("v") ("t") ("27123"))
      ("c") ⟨2024, 0, 5, 7, 3, 9⟩ (.resp 200 ("")) (by decide) (by decide)⟩

/-- Counterexample to claim C10 as stated: the vault names " " and "a" are
both non-empty and share token and port, yet the probe for " " issues no
request at all (the constructor trims the vault name to the empty string, so
the configuration guard fires) while the probe for "a" issues one request,
and the two outcomes differ. -/
theorem obsidian_probe_vault_counterexample :
    ((" ") : String) ≠ ("") ∧ (("a") : String) ≠ ("") ∧
    (mkObsidianWriter (" ") ("t") ("27123")).testConnection (.resp 200 ("OK")) =
      ([], ⟨false, ("Obsidian Vault Name or API Token is not set.")⟩) ∧
    ((mkObsidianWriter ("a") ("t") ("27123")).testConnection (.resp 200 ("OK"))).1.length = 1 ∧
    (mkObsidianWriter (" ") ("t") ("27123")).testConnection (.resp 200 ("OK")) ≠
      (mkObsidianWriter ("a") ("t") ("27123")).testConnection (.resp 200 ("OK")) := by
  decide

/-- Claim C10 (amended): for any two vault names that are non-empty after
trimming, with the same token and port, the connection probe issues the
identical single HEAD request to base/vault/ with only the Authorization
header, and yields identical outcomes; hence a successful connection test
never validates that the configured vault name exists. -/
theorem obsidian_probe_vault_independent
    (v v2 t p : String) (net : ProbeNet)
    (hv : jsTrim v ≠ ("")) (hv2 : jsTrim v2 ≠ ("")) (ht : t ≠ ("")) :
    (mkObsidianWriter v t p).testConnection net =
      (mkObsidianWriter v2 t p).testConnection net ∧
    ((mkObsidianWriter v t p).testConnection net).1 =
      [⟨.head, ("http://127.0.0.1:") ++ p ++ ("/vault/"), some (("Bearer ") ++ t), .noBody⟩] := by
  have h1 : ¬((mkObsidianWriter v t p).vaultName = ("") ∨
      (mkObsidianWriter v t p).apiToken = ("")) := by
    simp [mkObsidianWriter_vaultName_ne_empty v t p hv]
    exact ht
  have h2 : ¬((mkObsidianWriter v2 t p).vaultName = ("") ∨
      (mkObsidianWriter v2 t p).apiToken = ("")) := by
    simp [mkObsidianWriter_vaultName_ne_empty v2 t p hv2]
    exact ht
  constructor
  · cases net <;> simp [ObsidianWriter.testConnection, h1, h2] <;>
      (repeat' apply And.intro) <;> rfl
  · cases net <;>
      simp [ObsidianWriter.testConnection, ObsidianWriter.apiUrl, h1] <;>
      (try split) <;> (repeat' apply And.intro) <;> rfl

/-- Closed instance of `obsidian_probe_vault_independent`. -/
theorem obsidian_probe_vault_independent_witness :
    jsTrim ("a") ≠ ("") ∧ jsTrim ("b") ≠ ("") ∧ (("t") : String) ≠ ("") ∧
    ((mkObsidianWriter ("a") ("t") ("27123")).testConnection (.resp 404 ("NF")) =
      (mkObsidianWriter ("b") ("t") ("27123")).testConnection (.resp 404 ("NF")) ∧
    ((mkObsidianWriter ("a") ("t") ("27123")).testConnection (.resp 404 ("NF"))).1 =
      [⟨.head, ("http://127.0.0.1:") ++ ("27123") ++ ("/vault/"),
        some (("Bearer ") ++ ("t")), .noBody⟩]) :=
  ⟨by decide, by decide, by decide,
    obsidian_probe_vault_independent ("a") ("b") ("t") ("27123")
      (.resp 404 ("NF")) (by decide) (by decide) (by decide)⟩
